import Mathlib

/-!
Shallow embedding of the Companytec DT435 client (JS implementation in
`companytec-client.js` / the interactive menu parser file, and the Go port in
the `companytec` package), together with theorems checking the frozen claims
about the frame codec, the transport session and the response interpreters.

Conventions of the embedding:
* JS strings are modelled as Lean `String`s, one `Char` per JS character
  (the protocol traffic is ASCII, where JS UTF-16 code units, Go runes and
  Lean `Char`s agree; Go's byte-length `len` is modelled by
  `String.utf8ByteSize`, which differs from `length` exactly on non-ASCII).
* Stateful socket code is modelled by explicit state passing: the network is
  an input (the bytes, or the first data chunk, that arrive before the
  per-call deadline), and each operation returns its result together with the
  successor session state.
* Loops over strings are modelled by structural recursion; where the source
  loop advances an index by a fixed stride, the recursion consumes the
  corresponding prefix of the remaining characters, with a fuel argument
  (initialised to the string length, an upper bound on the iteration count)
  so that every definition is kernel-evaluable.
-/

namespace Companytec

/-- JS `String.prototype.substring(a, b)`: both indices are clamped to
`[0, length]` and swapped when `a > b`; returns the characters of the
half-open slice. -/
def jsSubstring (s : String) (a b : Nat) : String :=
  let n := s.length
  let a2 := min a n
  let b2 := min b n
  ⟨(s.data.drop (min a2 b2)).take (max a2 b2 - min a2 b2)⟩

/-- JS `String.prototype.padStart(target, pad)` for a one-character pad
string: left-pads to `target` characters, returns the string unchanged when
it is already at least that long (it never truncates). -/
def jsPadStart (target : Nat) (c : Char) (s : String) : String :=
  if target ≤ s.length then s
  else ⟨List.replicate (target - s.length) c ++ s.data⟩

/-- JS `String.prototype.toUpperCase` restricted to the characters this
codec produces (ASCII hex digits). -/
def jsToUpperCase (s : String) : String := ⟨s.data.map Char.toUpper⟩

/-- Lowercase hex digit characters, as produced by JS `Number.toString(16)`. -/
def hexCharLower (k : Nat) : Char := "0123456789abcdef".data.getD k '0'

/-- Uppercase hex digit characters, as produced by Go `%X` formatting. -/
def hexCharUpper (k : Nat) : Char := "0123456789ABCDEF".data.getD k '0'

/-- Hex digit list of `n` (most significant first), lowercase, with a fuel
argument; `fuel = n + 1` always suffices because the value shrinks by a
factor of 16 each step. -/
def natToHexAux : Nat → Nat → List Char
  | 0, _ => []
  | fuel + 1, n =>
    if n < 16 then [hexCharLower n]
    else natToHexAux fuel (n / 16) ++ [hexCharLower (n % 16)]

/-- JS `n.toString(16)` for a natural number: lowercase hex digits, `"0"`
for zero. -/
def natToHexDigits (n : Nat) : List Char := natToHexAux (n + 1) n

/-- Uppercase hex digit list of `n`, as produced by Go `%X`. -/
def natToHexUpperAux : Nat → Nat → List Char
  | 0, _ => []
  | fuel + 1, n =>
    if n < 16 then [hexCharUpper n]
    else natToHexUpperAux fuel (n / 16) ++ [hexCharUpper (n % 16)]

/-- Go `fmt` zero-flag width padding for strings (`%0Ns`): left-pads with
`'0'` up to `width` characters (Go counts runes for the width), returning
longer strings unchanged. -/
def goPadZero (width : Nat) (s : String) : String :=
  if width ≤ s.length then s
  else ⟨List.replicate (width - s.length) '0' ++ s.data⟩

/-- Go `fmt.Sprintf("%02X", n)`. -/
def goSprintf02X (n : Nat) : String := goPadZero 2 ⟨natToHexUpperAux (n + 1) n⟩

/-- JS `calculateChecksum` body loop: `for (let i = 1; i < command.length; i++)
sum += command.charCodeAt(i)` — the sum of the character codes from index 1 on. -/
def sumCharCodes (command : String) : Nat :=
  ((command.data.drop 1).map Char.toNat).sum

/-- JS `calculateChecksum(command)`:
`(sum & 0xff).toString(16).toUpperCase().padStart(2, "0")`. -/
def calculateChecksum (command : String) : String :=
  jsPadStart 2 '0' (jsToUpperCase ⟨natToHexDigits (sumCharCodes command &&& 0xff)⟩)

/-- JS `buildCommand(header, parameters)`:
frame `"(" + header + parameters + checksum + ")"` where the checksum is
computed over the body including its leading `"("`. -/
def buildCommand (header parameters : String) : String :=
  let commandBody := "(" ++ header ++ parameters
  commandBody ++ calculateChecksum commandBody ++ ")"

/-- Modelled from the spec's words (the comparand for the checksum claim):
the sum of the character codes of `body[1:]`, reduced mod 256 and rendered
as exactly two uppercase hexadecimal digits, zero-left-padded. -/
def checksumSpec (body : String) : String :=
  let m := ((body.data.drop 1).map Char.toNat).sum % 256
  ⟨[hexCharUpper (m / 16), hexCharUpper (m % 16)]⟩

/-- Go `calculateChecksum` loop: converts the command to runes and sums the
code points from index 1 on. -/
def goSumRunes (command : String) : Nat :=
  ((command.data.drop 1).map Char.toNat).sum

/-- Go `calculateChecksum(command)`: `fmt.Sprintf("%02X", sum&0xff)`. -/
def goCalculateChecksum (command : String) : String :=
  goSprintf02X (goSumRunes command &&& 0xff)

/-- Go `BuildCommand(header, parameters)`. -/
def goBuildCommand (header parameters : String) : String :=
  let commandBody := "(" ++ header ++ parameters
  commandBody ++ goCalculateChecksum commandBody ++ ")"

/-- JS `increment()` sends the fixed literal frame. -/
def incrementCommand : String := "(&I)"

/-- JS `getVisualization()` sends the fixed literal frame. -/
def getVisualizationCommand : String := "(&V)"

/-- JS `getStatus()` sends the fixed literal frame. -/
def getStatusCommand : String := "(&S)"

/-- JS `readCalendar()` sends the fixed literal frame. -/
def readCalendarCommand : String := "(&R)"

/-- Observable effect of a parameterised operation: it either hands a wire
frame to the transport, or rejects the input before any I/O. (The sources
never take the `reject` branch; the constructor exists so that the
validation claim is expressible.) -/
inductive ClientAction where
  | send (frame : String)
  | reject
deriving DecidableEq

/-- Frame built by JS `changePrice(nozzle, level, price)`:
`buildCommand("&U", nozzle + level + "0" + price.padStart(4, "0"))`. -/
def jsChangePriceFrame (nozzle level price : String) : String :=
  buildCommand "&U" (nozzle ++ level ++ "0" ++ jsPadStart 4 '0' price)

/-- JS `changePrice`: no validation — every input is framed and sent. -/
def changePrice (nozzle level price : String) : ClientAction :=
  .send (jsChangePriceFrame nozzle level price)

/-- JS `setPreset(nozzle, value)`:
`buildCommand("&P", nozzle + value.padStart(6, "0"))`, sent unconditionally. -/
def setPreset (nozzle value : String) : ClientAction :=
  .send (buildCommand "&P" (nozzle ++ jsPadStart 6 '0' value))

/-- Go `ChangePrice` price padding: `if len(price) < 4` (byte length) then
`fmt.Sprintf("%04s", price)` (rune-counted zero padding). -/
def goChangePricePad (price : String) : String :=
  if price.utf8ByteSize < 4 then goPadZero 4 price else price

/-- Frame built by Go `ChangePrice(nozzle, level, price)`. -/
def goChangePriceFrame (nozzle level price : String) : String :=
  goBuildCommand "&U" (nozzle ++ level ++ "0" ++ goChangePricePad price)

/-- Go `ChangePrice`: no validation — every input is framed and sent. -/
def goChangePrice (nozzle level price : String) : ClientAction :=
  .send (goChangePriceFrame nozzle level price)

/-- Session state of the JS client: the single `this.connected` flag. -/
structure JsState where
  connected : Bool
deriving DecidableEq

/-- Errors the JS `sendCommand` promise can reject with. -/
inductive JsError where
  | notConnected
  | timeout
deriving DecidableEq

/-- Result of one JS `sendCommand` call. -/
inductive JsSendResult where
  | ok (response : String)
  | err (e : JsError)
deriving DecidableEq

/-- JS `sendCommand(command)`: rejects with `"Not connected to device"` when
`connected` is false; otherwise writes the frame and resolves with the FIRST
`data` event (`this.client.once("data", ...)`) — it does not scan for the
closing `)`. The environment input is the first chunk delivered within the
5-second window (`none` = nothing arrived, the `setTimeout` fires). Neither
the timeout nor a success path touches `this.connected` or the socket. -/
def jsSendCommand (st : JsState) (firstChunk : Option String) :
    JsSendResult × JsState :=
  if st.connected = false then (.err .notConnected, st)
  else
    match firstChunk with
    | none => (.err .timeout, st)
    | some chunk => (.ok chunk, st)

/-- What one call to JS `connect()` does, besides the state transition. The
source constructs a fresh `net.Socket` and dials on every call — it never
consults `this.connected` — so the action is always a dial, never a no-op. -/
inductive ConnectAction where
  | dialed (ok : Bool)
  | noop
deriving DecidableEq

/-- JS `connect()`: unconditionally replaces `this.client` with a new socket
and dials; the connect callback sets `connected = true`, the error handler
sets `connected = false` and rejects. `dialOk` is whether the TCP dial
succeeds. -/
def jsConnect (_st : JsState) (dialOk : Bool) : ConnectAction × JsState :=
  (.dialed dialOk, ⟨dialOk⟩)

/-- Session state of the Go client: the `connected` flag and whether `conn`
is non-nil. -/
structure GoState where
  connected : Bool
  hasConn : Bool
deriving DecidableEq

/-- Errors Go `SendCommand` can actually return. The source also has read-
and write-error `return` statements, but both sit after a call to
`c.Disconnect()` made while `SendCommand` still holds `c.mu`, so those
returns are unreachable (see `GoSendResult.deadlock`); the only reachable
error return is the not-connected guard. -/
inductive GoError where
  | notConnected
deriving DecidableEq

/-- Outcome of one Go `SendCommand` call. `deadlock` marks a path on which
the call never returns: `Disconnect()` begins with `c.mu.Lock()` on the
non-reentrant `sync.Mutex` that `SendCommand` acquired on entry and still
holds, so the goroutine blocks forever — the socket is never closed and
`connected` is never cleared. -/
inductive GoSendResult where
  | ok (response : String)
  | err (e : GoError)
  | deadlock
deriving DecidableEq

/-- The shortest prefix of the character list through the first `')'`
(the whole list when no `')'` occurs) — the bytes `bufio.ReadString(')')`
consumes. -/
def takeThroughParenAux : List Char → List Char
  | [] => []
  | c :: cs => if c = ')' then [c] else c :: takeThroughParenAux cs

/-- String form of `takeThroughParenAux`. -/
def takeThroughParen (s : String) : String := ⟨takeThroughParenAux s.data⟩

/-- Whether the string contains the closing delimiter `')'`. -/
def hasParen (s : String) : Bool := s.data.contains ')'

/-- Go `Disconnect()` when called with `c.mu` free (as the interactive loop
and the signal handler do): closes and clears the connection and clears
`connected`. Calling it from inside `SendCommand`, which already holds
`c.mu`, instead deadlocks before any of these effects happen. -/
def goDisconnect (_st : GoState) : GoState := ⟨false, false⟩

/-- Go `SendCommand(command)`: errors when not connected; otherwise writes
the frame and calls `bufio.ReadString(')')` under the deadline. `arrived` is
the concatenation of whatever bytes the TCP layer delivers before the
deadline (buffered reading makes the result independent of how they were
chunked; the write is assumed to succeed). If a `')'` arrives, the reply
through the first `')'` is returned. Otherwise `ReadString` returns a
deadline error with the partial data: when partial data arrived the source
falls through and returns it with a nil error, and when nothing at all
arrived the source calls `c.Disconnect()` before its error return — but `SendCommand` still holds the non-reentrant `c.mu` it locked
on entry, and `Disconnect` starts by locking `c.mu` again, so that path
self-deadlocks: the call never returns, the read error is unreachable, and
the session state is left exactly as it was (the returned state is the
state at the moment the call hangs). -/
def goSendCommand (st : GoState) (arrived : String) :
    GoSendResult × GoState :=
  if !(st.connected && st.hasConn) then (.err .notConnected, st)
  else if hasParen arrived then (.ok (takeThroughParen arrived), st)
  else if arrived = "" then (.deadlock, st)
  else (.ok arrived, st)

/-- Go `Connect()`: returns nil immediately when `connected && conn != nil`;
otherwise dials, and only on success stores the connection and sets
`connected`. -/
def goConnect (st : GoState) (dialOk : Bool) : ConnectAction × GoState :=
  if st.connected && st.hasConn then (.noop, st)
  else if dialOk then (.dialed true, ⟨true, true⟩)
  else (.dialed false, st)

/-- Shared stripping step of the supply/total parsers:
`response.substring(1, response.length - 3)` — drop the leading `(` and the
trailing checksum plus `)`. -/
def supplyData (response : String) : String :=
  jsSubstring response 1 (response.length - 3)

/-- The nine basic supply fields printed by `parseSupplyResponse`. -/
structure SupplyBasic where
  totalToPay : String
  volume : String
  price : String
  commaCode : String
  supplyTime : String
  nozzle : String
  day : String
  hour : String
  minute : String
deriving DecidableEq

/-- The four extended supply fields printed by `parseSupplyResponse`. -/
structure SupplyExt where
  month : String
  record : String
  finalTotal : String
  status : String
deriving DecidableEq

/-- Outcome of `parseSupplyResponse`: the sentinel short-circuit, or the
optional basic and extended field groups. -/
inductive SupplyResult where
  | noData
  | parsed (basic : Option SupplyBasic) (ext : Option SupplyExt)
deriving DecidableEq

/-- The nine basic slices of a supply body. -/
def supplyBasicOf (data : String) : SupplyBasic :=
  ⟨jsSubstring data 0 6, jsSubstring data 6 12, jsSubstring data 12 16,
    jsSubstring data 16 18, jsSubstring data 18 22, jsSubstring data 22 24,
    jsSubstring data 24 26, jsSubstring data 26 28, jsSubstring data 28 30⟩

/-- The four extended slices of a supply body. -/
def supplyExtOf (data : String) : SupplyExt :=
  ⟨jsSubstring data 30 32, jsSubstring data 32 36, jsSubstring data 36 46,
    jsSubstring data 46 48⟩

/-- The interactive client's `parseSupplyResponse(response)`: sentinel check,
strip 1 leading + 3 trailing characters, print the nine basic fields only
under `data.length >= 34`, and the four extended fields additionally under
`data.length >= 52`. -/
def parseSupplyResponse (response : String) : SupplyResult :=
  if response = "(0)" then .noData
  else if 34 ≤ (supplyData response).length then
    .parsed (some (supplyBasicOf (supplyData response)))
      (if 52 ≤ (supplyData response).length then
        some (supplyExtOf (supplyData response))
      else none)
  else .parsed none none

/-- Whether a `SupplyResult` carries the basic field group. -/
def SupplyResult.basicSome : SupplyResult → Bool
  | .parsed (some _) _ => true
  | _ => false

/-- Whether a `SupplyResult` carries the extended field group. -/
def SupplyResult.extSome : SupplyResult → Bool
  | .parsed _ (some _) => true
  | _ => false

/-- The fields printed by `parseSupplyIdentifiedResponse`. -/
structure SupplyIdFields where
  total : String
  volume : String
  price : String
  nozzle : String
  identifier : String
deriving DecidableEq

/-- Outcome of `parseSupplyIdentifiedResponse`. -/
inductive SupplyIdResult where
  | noData
  | parsed (fields : Option SupplyIdFields)
deriving DecidableEq

/-- The interactive client's `parseSupplyIdentifiedResponse(response)`:
sentinel check, strip 2 leading + 3 trailing characters, fields only under
`data.length >= 70`. -/
def parseSupplyIdentifiedResponse (response : String) : SupplyIdResult :=
  if response = "(0)" then .noData
  else
    let data := jsSubstring response 2 (response.length - 3)
    if 70 ≤ data.length then
      .parsed (some ⟨jsSubstring data 0 6, jsSubstring data 6 12,
        jsSubstring data 12 16, jsSubstring data 22 24,
        jsSubstring data 50 66⟩)
    else .parsed none

/-- The thirteen keys of the monitor's supply record object. -/
structure SupplyRecordFields where
  totalToPay : String
  volume : String
  price : String
  commaCode : String
  supplyTime : String
  nozzle : String
  day : String
  hour : String
  minute : String
  month : String
  record : String
  finalTotal : String
  status : String
deriving DecidableEq

/-- The monitor's `parseSupplyRecord(response)`: strips 1 leading + 3
trailing characters and unconditionally populates all thirteen keys from
fixed slices (short bodies yield empty-string slices, never an error). -/
def parseSupplyRecord (response : String) : SupplyRecordFields :=
  ⟨jsSubstring (supplyData response) 0 6, jsSubstring (supplyData response) 6 12,
    jsSubstring (supplyData response) 12 16, jsSubstring (supplyData response) 16 18,
    jsSubstring (supplyData response) 18 22, jsSubstring (supplyData response) 22 24,
    jsSubstring (supplyData response) 24 26, jsSubstring (supplyData response) 26 28,
    jsSubstring (supplyData response) 28 30, jsSubstring (supplyData response) 30 32,
    jsSubstring (supplyData response) 32 36, jsSubstring (supplyData response) 36 46,
    jsSubstring (supplyData response) 46 48⟩

/-- One visualization line: nozzle code and value slice. -/
structure VizEntry where
  nozzle : String
  value : String
deriving DecidableEq

/-- Outcome of a visualization parser. -/
inductive VizResult where
  | noData
  | entries (lines : List VizEntry)
deriving DecidableEq

/-- The interactive client's visualization loop
(`for (let i = 0; i < data.length; i += 8)` with no full-window guard): at
each step the remaining characters are the suffix from index `i`; the entry
is `substring(i, i+2)` / `substring(i+2, i+8)`, i.e. clamped `take`s of that
suffix. Fuel is the remaining length, an upper bound on the iterations. -/
def vizAllAux : Nat → List Char → List VizEntry
  | 0, _ => []
  | fuel + 1, l =>
    if l = [] then []
    else ⟨⟨l.take 2⟩, ⟨(l.drop 2).take 6⟩⟩ :: vizAllAux fuel (l.drop 8)

/-- The monitor's visualization loop: same stride, but an entry is emitted
only under the guard `i + 8 <= data.length` (a full window remains). -/
def vizFullAux : Nat → List Char → List VizEntry
  | 0, _ => []
  | fuel + 1, l =>
    if l = [] then []
    else (if 8 ≤ l.length then [(⟨⟨l.take 2⟩, ⟨(l.drop 2).take 6⟩⟩ : VizEntry)] else [])
      ++ vizFullAux fuel (l.drop 8)

/-- All 8-character windows of the body, including a trailing partial one. -/
def vizWindowsAll (l : List Char) : List VizEntry := vizAllAux l.length l

/-- Only the full 8-character windows of the body. -/
def vizWindowsFull (l : List Char) : List VizEntry := vizFullAux l.length l

/-- The interactive client's `parseVisualizationResponse(response)`:
sentinel check, strip 1 leading + 1 trailing character, walk the body in
8-character strides emitting every window (partial last window included). -/
def parseVisualizationResponse (response : String) : VizResult :=
  if response = "(0)" then .noData
  else .entries (vizWindowsAll (jsSubstring response 1 (response.length - 1)).data)

/-- The monitor's `parseAndDisplayVisualization(response)`: sentinel check,
strip 1 leading + 1 trailing character, emit only full 8-character windows
(`if (i + 8 <= data.length)`). -/
def parseAndDisplayVisualization (response : String) : VizResult :=
  if response = "(0)" then .noData
  else .entries (vizWindowsFull (jsSubstring response 1 (response.length - 1)).data)

/-- The `switch` in `parseStatusResponse` mapping a status code character to
its description, defaulting to `"Unknown"`. -/
def statusDescription (code : Char) : String :=
  if code = 'L' then "Available"
  else if code = 'B' then "Blocked"
  else if code = 'C' then "Finished"
  else if code = 'A' then "Refueling"
  else if code = 'E' then "Waiting"
  else if code = 'F' then "Not present"
  else if code = 'P' then "Ready"
  else "Unknown"

/-- The interactive client's `parseStatusResponse(response)` (no sentinel
check): strip 1 leading + 1 trailing character, take `substring(1, 33)` as
the status codes, and emit `(position, code, description)` for every code,
skipping positions whose code is `'F'`. -/
def parseStatusResponse (response : String) : List (Nat × Char × String) :=
  let data := jsSubstring response 1 (response.length - 1)
  let statusCodes := jsSubstring data 1 33
  statusCodes.data.enum.filterMap fun ic =>
    if ic.2 ≠ 'F' then some (ic.1 + 1, ic.2, statusDescription ic.2) else none

/-- The fields printed by `parseTotalResponse`. -/
structure TotalReading where
  mode : String
  nozzle : String
  value : String
deriving DecidableEq

/-- The interactive client's `parseTotalResponse(response)` (no sentinel
check): strip 1 leading + 3 trailing characters; fields only under
`data.length >= 10` (`data[0]`, `substring(1, 3)`, `substring(3, 11)`). -/
def parseTotalResponse (response : String) : Option TotalReading :=
  let data := jsSubstring response 1 (response.length - 3)
  if 10 ≤ data.length then
    some ⟨jsSubstring data 0 1, jsSubstring data 1 3, jsSubstring data 3 11⟩
  else none

/-! Helper lemmas. -/

set_option maxRecDepth 8192 in
theorem hexPadUpper_eq : ∀ m : Fin 256,
    jsPadStart 2 '0' (jsToUpperCase ⟨natToHexDigits m.val⟩)
      = (⟨[hexCharUpper (m.val / 16), hexCharUpper (m.val % 16)]⟩ : String) := by
  decide

set_option maxRecDepth 8192 in
theorem goSprintf02X_eq : ∀ m : Fin 256,
    goSprintf02X m.val
      = (⟨[hexCharUpper (m.val / 16), hexCharUpper (m.val % 16)]⟩ : String) := by
  decide

theorem land_255 (n : Nat) : n &&& 0xff = n % 256 := by
  simpa using Nat.and_pow_two_sub_one_eq_mod n 8

theorem sumCharCodes_mod_lt (s : String) : sumCharCodes s % 256 < 256 :=
  Nat.mod_lt _ (by omega)

theorem calculateChecksum_eq_spec (s : String) :
    calculateChecksum s = checksumSpec s := by
  have h := hexPadUpper_eq ⟨sumCharCodes s % 256, sumCharCodes_mod_lt s⟩
  simp only [calculateChecksum, checksumSpec, land_255]
  simpa [sumCharCodes] using h

theorem goCalculateChecksum_eq (s : String) :
    goCalculateChecksum s = calculateChecksum s := by
  have h := goSprintf02X_eq ⟨sumCharCodes s % 256, sumCharCodes_mod_lt s⟩
  rw [calculateChecksum_eq_spec]
  simp only [goCalculateChecksum, goSumRunes, checksumSpec, land_255]
  simpa [sumCharCodes] using h

theorem goBuildCommand_eq (header parameters : String) :
    goBuildCommand header parameters = buildCommand header parameters := by
  simp only [goBuildCommand, buildCommand, goCalculateChecksum_eq]

theorem utf8Size_eq_one_of_ascii (c : Char) (h : c.toNat < 128) :
    c.utf8Size = 1 := by
  have h127 : (UInt32.ofNatCore 0x7F (by decide)).toBitVec.toNat = 127 := rfl
  have hcv : c.val.toBitVec.toNat = c.toNat := rfl
  have hv : c.val ≤ UInt32.ofNatCore 0x7F (by decide) := by
    simp only [UInt32.le_def, BitVec.le_def]
    omega
  simp only [Char.utf8Size]
  split
  · rfl
  · rename_i hcontra
    exact absurd hv hcontra

theorem utf8ByteSize_eq_length_of_ascii (s : String)
    (h : ∀ c ∈ s.data, c.toNat < 128) : s.utf8ByteSize = s.length := by
  cases s with
  | mk l =>
    simp only [String.utf8ByteSize, String.length]
    induction l with
    | nil => rfl
    | cons c cs ih =>
      have hc : c.utf8Size = 1 := utf8Size_eq_one_of_ascii c (h c (by simp))
      simp only [String.utf8ByteSize.go, List.length_cons]
      rw [hc, ih]
      intro x hx
      exact h x (by simp [hx])

theorem jsSubstring_out_of_range (s : String) (a b : Nat)
    (ha : s.length ≤ a) (hb : s.length ≤ b) : jsSubstring s a b = "" := by
  simp only [jsSubstring, Nat.min_eq_right ha, Nat.min_eq_right hb,
    Nat.min_self, Nat.max_self, Nat.sub_self, List.take_zero]

theorem jsPadStart_eq_replicate (target : Nat) (c : Char) (s : String) :
    jsPadStart target c s
      = ⟨List.replicate (target - s.length) c ++ s.data⟩ := by
  unfold jsPadStart
  split
  · rename_i hle
    have h0 : target - s.length = 0 := by omega
    rw [h0]
    cases s
    rfl
  · rfl

theorem vizAux_take (fuel : Nat) : ∀ l : List Char, l.length ≤ fuel →
    vizFullAux fuel l = (vizAllAux fuel l).take (l.length / 8) := by
  induction fuel with
  | zero =>
    intro l _hl
    simp [vizFullAux, vizAllAux]
  | succ fuel ih =>
    intro l hl
    by_cases hnil : l = []
    · simp [vizFullAux, vizAllAux, hnil]
    · rw [vizFullAux, vizAllAux, if_neg hnil, if_neg hnil]
      by_cases h8 : 8 ≤ l.length
      · rw [if_pos h8]
        have hdiv : l.length / 8 = (l.length - 8) / 8 + 1 :=
          Nat.div_eq_sub_div (by omega) h8
        simp only [hdiv, List.take_succ_cons, List.singleton_append]
        rw [ih (l.drop 8) (by simp [List.length_drop]; omega), List.length_drop]
      · rw [if_neg h8]
        have h0 : l.length / 8 = 0 := Nat.div_eq_of_lt (by omega)
        have hd : l.drop 8 = [] := List.drop_eq_nil_of_le (by omega)
        simp [h0, hd]
        cases fuel <;> simp [vizFullAux]

theorem jsSendCommand_timeout_state (st : JsState) :
    (jsSendCommand st none).2 = st := by
  cases st with
  | mk c => cases c <;> rfl

/-! Claim theorems. -/

/-- C1: for every input string, `calculateChecksum` returns the sum of the
character codes of the input from index 1 on, masked to the low 8 bits and
rendered as exactly 2 uppercase hexadecimal digits left-padded with `'0'`
(the spec-worded rendering is `checksumSpec`); in particular the checksum of
the body `"(&T08L"` is `"2E"`. -/
theorem c1_checksum_correct :
    (∀ s : String, calculateChecksum s = checksumSpec s)
    ∧ (∀ s : String, (calculateChecksum s).length = 2)
    ∧ calculateChecksum "(&T08L" = "2E" := by
  refine ⟨calculateChecksum_eq_spec, ?_, by decide⟩
  intro s
  rw [calculateChecksum_eq_spec]
  simp [checksumSpec, String.length]

/-- C2 counterexample: when the device reply `"(0)"` is delivered by TCP in
the two chunks `"("` then `"0)"`, the JS `sendCommand` resolves with the
first chunk `"("` alone, not with the complete reply through the first
`')'`, refuting the claim for the JS client. -/
theorem c2_counterexample :
    "(" ++ "0)" = "(0)"
    ∧ (jsSendCommand ⟨true⟩ (some "(")).1 = JsSendResult.ok "("
    ∧ takeThroughParen "(0)" = "(0)"
    ∧ JsSendResult.ok "(" ≠ JsSendResult.ok "(0)" := by
  refine ⟨by decide, by decide, by decide, by decide⟩

/-- C2 amended: the Go `SendCommand` reads until the closing delimiter and,
whenever a `')'` arrives within the deadline, returns the reply through the
first `')'` regardless of chunking; the JS `sendCommand` instead resolves
with exactly the first data chunk, so it returns the complete reply only
when the whole reply arrives in one chunk. -/
theorem c2_amended :
    (∀ arrived : String, hasParen arrived = true →
      (goSendCommand ⟨true, true⟩ arrived).1
        = GoSendResult.ok (takeThroughParen arrived))
    ∧ (∀ st : JsState, ∀ chunk : String, st.connected = true →
      (jsSendCommand st (some chunk)).1 = JsSendResult.ok chunk) := by
  constructor
  · intro arrived h
    simp [goSendCommand, h]
  · intro st chunk h
    simp [jsSendCommand, h]

/-- C2 witness: the amended statement instantiated at the stream `"(0)x"`
for the Go client and at the single chunk `"(0)"` for the JS client. -/
theorem c2_amended_witness :
    (goSendCommand ⟨true, true⟩ "(0)x").1
      = GoSendResult.ok (takeThroughParen "(0)x")
    ∧ (jsSendCommand ⟨true⟩ (some "(0)")).1 = JsSendResult.ok "(0)" :=
  ⟨c2_amended.1 "(0)x" (by decide), c2_amended.2 ⟨true⟩ "(0)" rfl⟩

/-- C3 counterexample: after a JS `sendCommand` timeout the promise rejects
with the timeout error, yet `connected` is still `true` — the session is
not left Disconnected, refuting the claim. -/
theorem c3_counterexample :
    (jsSendCommand ⟨true⟩ none).1 = JsSendResult.err JsError.timeout
    ∧ (jsSendCommand ⟨true⟩ none).2.connected = true := by
  decide

/-- C3 amended: a JS read timeout rejects with the timeout error but never
changes the session state (the socket stays open and `connected` stays
`true`); the Go client, when no bytes at all arrived before the deadline,
calls `Disconnect` while still holding the session mutex and self-deadlocks
— the call never returns, no error is surfaced and the session is never
actually disconnected (its state is frozen as it was) — and when partial
bytes arrived without a `')'` it returns them as a successful response and
stays connected. -/
theorem c3_amended :
    (∀ st : JsState, (jsSendCommand st none).2 = st)
    ∧ goSendCommand ⟨true, true⟩ "" = (GoSendResult.deadlock, ⟨true, true⟩)
    ∧ goSendCommand ⟨true, true⟩ "(0" = (GoSendResult.ok "(0", ⟨true, true⟩) := by
  refine ⟨jsSendCommand_timeout_state, by decide, by decide⟩

/-- C4 counterexample: calling JS `connect` while the session is already
connected still dials a fresh socket — it is not a no-op — refuting the
idempotence claim for the JS client. -/
theorem c4_counterexample :
    (jsConnect ⟨true⟩ true).1 = ConnectAction.dialed true
    ∧ ConnectAction.dialed true ≠ ConnectAction.noop := by
  decide

/-- C4 amended: the Go `Connect` is idempotent (calling it while connected
is a no-op returning success) and transitions to Connected only on a
successful dial; the JS `connect` always opens and dials a new socket,
even when already connected, and its `connected` flag afterwards equals
the dial outcome. -/
theorem c4_amended :
    (∀ ok : Bool, goConnect ⟨true, true⟩ ok = (ConnectAction.noop, ⟨true, true⟩))
    ∧ (∀ st : JsState, ∀ ok : Bool, (jsConnect st ok).1 ≠ ConnectAction.noop)
    ∧ (∀ st : JsState, ∀ ok : Bool, (jsConnect st ok).2.connected = ok)
    ∧ (∀ ok : Bool, (goConnect ⟨false, false⟩ ok).2.connected = ok) := by
  refine ⟨fun ok => rfl, ?_, fun st ok => rfl, fun ok => by cases ok <;> rfl⟩
  intro st ok
  simp [jsConnect]

/-- C5: decoding the sentinel `"(0)"` through each of the five interpreters
(supply, supply-identified, visualization, nozzle status, total reading)
yields that interpreter's defined no-data result — the explicit no-data
constructor for the three parsers with a sentinel check, the empty status
vector and the absent total reading for the two without — and never an
error or a field access out of range. -/
theorem c5_sentinel_no_data :
    parseSupplyResponse "(0)" = SupplyResult.noData
    ∧ parseSupplyIdentifiedResponse "(0)" = SupplyIdResult.noData
    ∧ parseVisualizationResponse "(0)" = VizResult.noData
    ∧ parseStatusResponse "(0)" = []
    ∧ parseTotalResponse "(0)" = none := by
  decide

/-- C6 counterexample: a response whose stripped body has exactly 30
characters populates no fields at all in `parseSupplyResponse` (the source
gates the basic nine fields on `data.length >= 34`), refuting the claim
that a 30-character body populates the first nine fields. -/
theorem c6_counterexample :
    (supplyData "(000000000000000000000000000000ab)").length = 30
    ∧ parseSupplyResponse "(000000000000000000000000000000ab)"
      = SupplyResult.parsed none none := by
  decide

/-- C6 amended: for every non-sentinel response, `parseSupplyResponse`
populates the nine basic fields exactly when the stripped body has at least
34 characters and the four extended fields (including `finalTotal` at
`[36:46]`) exactly when it has at least 52; a 30-character body therefore
populates nothing there, while the monitor's `parseSupplyRecord` always
populates all thirteen keys, the extended ones being empty strings for a
30-character body; neither parser can throw. -/
theorem c6_amended (response : String) (h : response ≠ "(0)") :
    ((parseSupplyResponse response).basicSome = true
      ↔ 34 ≤ (supplyData response).length)
    ∧ ((parseSupplyResponse response).extSome = true
      ↔ 52 ≤ (supplyData response).length)
    ∧ ((supplyData response).length = 30 →
      (parseSupplyRecord response).month = ""
      ∧ (parseSupplyRecord response).finalTotal = "") := by
  refine ⟨?_, ?_, ?_⟩
  · rw [parseSupplyResponse, if_neg h]
    by_cases h34 : 34 ≤ (supplyData response).length
    · rw [if_pos h34]
      simp [SupplyResult.basicSome, h34]
    · rw [if_neg h34]
      simp [SupplyResult.basicSome, h34]
  · rw [parseSupplyResponse, if_neg h]
    by_cases h34 : 34 ≤ (supplyData response).length
    · rw [if_pos h34]
      by_cases h52 : 52 ≤ (supplyData response).length
      · rw [if_pos h52]
        simp [SupplyResult.extSome, h52]
      · rw [if_neg h52]
        simp [SupplyResult.extSome, h52]
    · rw [if_neg h34]
      simp only [SupplyResult.extSome, Bool.false_eq_true, false_iff]
      omega
  · intro h30
    constructor
    · simp only [parseSupplyRecord]
      exact jsSubstring_out_of_range _ 30 32 (by omega) (by omega)
    · simp only [parseSupplyRecord]
      exact jsSubstring_out_of_range _ 36 46 (by omega) (by omega)

/-- C6 witness: the amended statement instantiated at a 30-character body
(threshold and empty extended slices) and at a 52-character body (extended
fields present). -/
theorem c6_amended_witness :
    ((parseSupplyResponse "(000000000000000000000000000000ab)").basicSome = true
      ↔ 34 ≤ (supplyData "(000000000000000000000000000000ab)").length)
    ∧ ((parseSupplyResponse
        "(1111111111222222222233333333334444444444555555555522ab)").extSome = true
      ↔ 52 ≤ (supplyData
        "(1111111111222222222233333333334444444444555555555522ab)").length)
    ∧ ((parseSupplyRecord "(000000000000000000000000000000ab)").month = ""
      ∧ (parseSupplyRecord "(000000000000000000000000000000ab)").finalTotal = "") :=
  ⟨(c6_amended "(000000000000000000000000000000ab)" (by decide)).1,
    (c6_amended "(1111111111222222222233333333334444444444555555555522ab)"
      (by decide)).2.1,
    (c6_amended "(000000000000000000000000000000ab)" (by decide)).2.2 (by decide)⟩

/-- C7 counterexample: on the 10-character body `"0801000012"` the
interactive client's visualization parser emits a second entry for the
trailing partial window (with a clamped empty value) instead of discarding
it, refuting the claim for that parser. -/
theorem c7_counterexample :
    parseVisualizationResponse "(0801000012)"
      = VizResult.entries [⟨"08", "010000"⟩, ⟨"12", ""⟩]
    ∧ VizResult.entries [(⟨"08", "010000"⟩ : VizEntry), ⟨"12", ""⟩]
      ≠ VizResult.entries [⟨"08", "010000"⟩] := by
  decide

/-- C7 amended: the monitor's visualization parser walks the stripped body
in 8-character windows split as nozzle `[0:2]` and value `[2:8]` and keeps
exactly the full windows (its output is the full-window prefix of the
interactive parser's output, which also emits the trailing partial window);
on the 16-character body `"0801000012500020"` both yield exactly the two
entries `08 / 010000` and `12 / 500020`. -/
theorem c7_amended :
    (∀ l : List Char, vizWindowsFull l = (vizWindowsAll l).take (l.length / 8))
    ∧ parseVisualizationResponse "(0801000012500020)"
      = VizResult.entries [⟨"08", "010000"⟩, ⟨"12", "500020"⟩]
    ∧ parseAndDisplayVisualization "(0801000012500020)"
      = VizResult.entries [⟨"08", "010000"⟩, ⟨"12", "500020"⟩]
    ∧ parseAndDisplayVisualization "(0801000012)"
      = VizResult.entries [⟨"08", "010000"⟩] := by
  refine ⟨fun l => vizAux_take l.length l (Nat.le_refl _), by decide, by decide,
    by decide⟩

/-- C8: the increment, visualization, status and calendar operations send
exactly the fixed literal frames `"(&I)"`, `"(&V)"`, `"(&S)"` and `"(&R)"`,
each of which differs from the checksummed frame `buildCommand` would
produce for the same header — no checksum field is appended. -/
theorem c8_literal_frames :
    incrementCommand = "(&I)"
    ∧ getVisualizationCommand = "(&V)"
    ∧ getStatusCommand = "(&S)"
    ∧ readCalendarCommand = "(&R)"
    ∧ buildCommand "&I" "" = "(&I6F)"
    ∧ incrementCommand ≠ buildCommand "&I" ""
    ∧ getVisualizationCommand ≠ buildCommand "&V" ""
    ∧ getStatusCommand ≠ buildCommand "&S" ""
    ∧ readCalendarCommand ≠ buildCommand "&R" "" := by
  refine ⟨rfl, rfl, rfl, rfl, by decide, by decide, by decide, by decide,
    by decide⟩

/-- C9 counterexample: `changePrice` with a wrong-width non-hex nozzle
`"XYZ"` and a five-digit price `"12345"` performs no validation: it builds
and hands the frame `"(&UXYZ9012345EE)"` to the transport instead of
failing before I/O, refuting the claim. -/
theorem c9_counterexample :
    changePrice "XYZ" "9" "12345" = ClientAction.send "(&UXYZ9012345EE)"
    ∧ ClientAction.send "(&UXYZ9012345EE)" ≠ ClientAction.reject := by
  decide

/-- C9 amended: `changePrice` and `setPreset` (JS) and `ChangePrice` (Go)
validate nothing — every input triple is framed and sent, there is no
reject path — but they never truncate or wrap: `padStart` leaves a value at
or above the field width unchanged and zero-left-pads a shorter one. -/
theorem c9_amended :
    (∀ nozzle level price : String,
      changePrice nozzle level price ≠ ClientAction.reject)
    ∧ (∀ nozzle value : String, setPreset nozzle value ≠ ClientAction.reject)
    ∧ (∀ nozzle level price : String,
      goChangePrice nozzle level price ≠ ClientAction.reject)
    ∧ (∀ price : String, jsPadStart 4 '0' price
        = ⟨List.replicate (4 - price.length) '0' ++ price.data⟩)
    ∧ (∀ value : String, jsPadStart 6 '0' value
        = ⟨List.replicate (6 - value.length) '0' ++ value.data⟩) := by
  refine ⟨?_, ?_, ?_, fun p => jsPadStart_eq_replicate 4 '0' p,
    fun v => jsPadStart_eq_replicate 6 '0' v⟩
  · intro nozzle level price
    simp [changePrice]
  · intro nozzle value
    simp [setPreset]
  · intro nozzle level price
    simp [goChangePrice]

/-- C10 counterexample: for the non-ASCII price `"éé"` (two characters,
four UTF-8 bytes) the JS `changePrice` pads to `"00éé"` while the Go
`ChangePrice` byte-length guard skips padding, so the two implementations
build different frames, refuting the every-input-triple claim. -/
theorem c10_counterexample :
    jsChangePriceFrame "08" "0" "éé" ≠ goChangePriceFrame "08" "0" "éé" := by
  decide

/-- C10 amended: for every input triple whose price is ASCII (each
character code below 128, which covers all protocol-legal inputs), the JS
`changePrice` and the Go `ChangePrice` build identical wire frames, the
price being zero-left-padded to width 4 in both exactly when shorter than
4 characters. -/
theorem c10_amended (nozzle level price : String)
    (h : ∀ c ∈ price.data, c.toNat < 128) :
    jsChangePriceFrame nozzle level price = goChangePriceFrame nozzle level price := by
  have hb : price.utf8ByteSize = price.length :=
    utf8ByteSize_eq_length_of_ascii price h
  unfold jsChangePriceFrame goChangePriceFrame
  rw [goBuildCommand_eq]
  have hpad : jsPadStart 4 '0' price = goChangePricePad price := by
    unfold jsPadStart goChangePricePad goPadZero
    rw [hb]
    by_cases h4 : 4 ≤ price.length
    · rw [if_pos h4, if_neg (by omega)]
    · rw [if_neg h4, if_pos (by omega)]
  rw [hpad]

/-- C10 witness: the amended statement instantiated at the ASCII triple
nozzle `"08"`, level `"0"`, price `"12"`. -/
theorem c10_amended_witness :
    jsChangePriceFrame "08" "0" "12" = goChangePriceFrame "08" "0" "12" :=
  c10_amended "08" "0" "12" (by decide)

end Companytec
